import Mathlib

/-!
Verification of the signal-tauri core against its specification.

The Rust sources are shallowly embedded: bytes are `Nat` (values < 256 where
they come from `u8`), byte buffers are `List Nat`, `u64`/`usize` arithmetic is
`Nat` with an explicit `% 2 ^ 64` where the Rust operation wraps, and fallible
operations return `Option`/`Except`.  External crates (sha2/hmac/hkdf/aes,
reqwest, chrono, base64) are modelled as abstract primitive parameters; all
control flow and data plumbing of the repository's own code is translated
directly from the source.
-/

/-- Error taxonomy of `src/signal/mod.rs` (`SignalError`); only the variants
exercised by the embedded functions are listed. -/
inductive SignalError where
  | notRegistered
  | cryptoError (msg : String)
  | sendFailed (msg : String)
  | networkError (msg : String)
  | protocolError (msg : String)
  | storageError (msg : String)
  deriving DecidableEq, Repr

/-- ASCII bytes of a string literal, as Rust's `b"..."`. -/
def asciiBytes (s : String) : List Nat :=
  s.data.map Char.toNat

/-- Wrapping 64-bit addition: Rust `usize`/`u64` addition in release mode. -/
def uadd (a b : Nat) : Nat :=
  (a + b) % (2 ^ 64)

/-- Rust slice `&data[start..stop]`: defined when `start ≤ stop ≤ data.len()`,
a panic (modelled as `none`) otherwise. -/
def rustSlice (data : List Nat) (start stop : Nat) : Option (List Nat) :=
  if start ≤ stop ∧ stop ≤ data.length then
    some ((data.drop start).take (stop - start))
  else
    none

/-- The loop body of `read_varint` (src/signal/backup/mod.rs:237), acting on
the suffix of the buffer that starts at the current offset.  Returns the
decoded value (if any) and the number of bytes consumed; the Rust function
advances `offset` by that count even when it returns `None`. -/
def readVarintGo : List Nat → Nat → Nat → Option Nat × Nat
  | [], _, _ => (none, 0)
  | b :: rest, shift, acc =>
    let acc2 := acc ||| ((b &&& 127) <<< shift % 2 ^ 64)
    if b &&& 128 = 0 then
      (some acc2, 1)
    else if 64 ≤ shift + 7 then
      (none, 1)
    else
      let r := readVarintGo rest (shift + 7) acc2
      (r.1, r.2 + 1)

/-- `read_varint(data, &mut offset)`: result value and the offset after the
call (the Rust `&mut usize` out-parameter). -/
def read_varint (data : List Nat) (offset : Nat) : Option Nat × Nat :=
  let r := readVarintGo (data.drop offset) 0 0
  (r.1, offset + r.2)

theorem readVarintGo_consumed_le (bytes : List Nat) :
    ∀ shift acc, (readVarintGo bytes shift acc).2 ≤ bytes.length := by
  induction bytes with
  | nil => intro shift acc; simp [readVarintGo]
  | cons b rest ih =>
    intro shift acc
    simp only [readVarintGo]
    by_cases hb : b &&& 128 = 0
    · rw [if_pos hb]; simp
    · rw [if_neg hb]
      by_cases hs : 64 ≤ shift + 7
      · rw [if_pos hs]; simp
      · rw [if_neg hs]
        have := ih (shift + 7) (acc ||| ((b &&& 127) <<< shift % 2 ^ 64))
        simp only [List.length_cons]
        omega

theorem readVarintGo_consumed_pos (b : Nat) (rest : List Nat) :
    ∀ shift acc, 1 ≤ (readVarintGo (b :: rest) shift acc).2 := by
  intro shift acc
  simp only [readVarintGo]
  by_cases hb : b &&& 128 = 0
  · rw [if_pos hb]
  · rw [if_neg hb]
    by_cases hs : 64 ≤ shift + 7
    · rw [if_pos hs]
    · rw [if_neg hs]; simp

theorem read_varint_offset_ge (data : List Nat) (offset : Nat) :
    offset ≤ (read_varint data offset).2 := by
  simp [read_varint]

theorem read_varint_offset_gt (data : List Nat) (offset : Nat)
    (h : offset < data.length) : offset + 1 ≤ (read_varint data offset).2 := by
  simp only [read_varint]
  have hne : data.drop offset ≠ [] := by
    intro hc
    have := congrArg List.length hc
    simp at this
    omega
  cases hd : data.drop offset with
  | nil => exact absurd hd hne
  | cons b rest =>
    have := readVarintGo_consumed_pos b rest 0 0
    omega

theorem read_varint_offset_le (data : List Nat) (offset : Nat) :
    (read_varint data offset).2 ≤ offset + (data.drop offset).length := by
  simp only [read_varint]
  have := readVarintGo_consumed_le (data.drop offset) 0 0
  omega

theorem readVarintGo_all_continuation (bytes : List Nat) :
    ∀ shift acc, (∀ b ∈ bytes, b &&& 128 ≠ 0) →
    (readVarintGo bytes shift acc).1 = none := by
  induction bytes with
  | nil => intro shift acc _; rfl
  | cons b rest ih =>
    intro shift acc h
    have hb : b &&& 128 ≠ 0 := h b (List.mem_cons_self b rest)
    simp only [readVarintGo]
    rw [if_neg hb]
    by_cases hs : 64 ≤ shift + 7
    · rw [if_pos hs]
    · rw [if_neg hs]
      exact ih (shift + 7) _ (fun x hx => h x (List.mem_cons_of_mem b hx))

/-- C4: `read_varint` decodes 7 value bits per byte, little-endian by group,
returning the correct value for the canonical encodings of 0, 127, 128,
16384 and 2^63−1; it returns `none` whenever every remaining byte has its
continuation bit set (truncated stream), and `none` whenever ten consecutive
continuation bytes push the accumulated shift to the 64-bit cap. -/
theorem C4_read_varint_correct :
    (read_varint [0] 0 = (some 0, 1)) ∧
    (read_varint [127] 0 = (some 127, 1)) ∧
    (read_varint [128, 1] 0 = (some 128, 2)) ∧
    (read_varint [128, 128, 1] 0 = (some 16384, 3)) ∧
    (read_varint [255, 255, 255, 255, 255, 255, 255, 255, 127] 0 =
      (some (2 ^ 63 - 1), 9)) ∧
    (∀ (data : List Nat) (offset : Nat),
      (∀ b ∈ data.drop offset, b &&& 128 ≠ 0) →
      (read_varint data offset).1 = none) ∧
    (∀ (b0 b1 b2 b3 b4 b5 b6 b7 b8 b9 : Nat) (rest : List Nat),
      b0 &&& 128 ≠ 0 → b1 &&& 128 ≠ 0 → b2 &&& 128 ≠ 0 → b3 &&& 128 ≠ 0 →
      b4 &&& 128 ≠ 0 → b5 &&& 128 ≠ 0 → b6 &&& 128 ≠ 0 → b7 &&& 128 ≠ 0 →
      b8 &&& 128 ≠ 0 → b9 &&& 128 ≠ 0 →
      (read_varint (b0 :: b1 :: b2 :: b3 :: b4 :: b5 :: b6 :: b7 :: b8 :: b9 ::
        rest) 0).1 = none) := by
  refine ⟨by decide, by decide, by decide, by decide, by decide, ?_, ?_⟩
  · intro data offset h
    simp only [read_varint]
    exact readVarintGo_all_continuation (data.drop offset) 0 0 h
  · intro b0 b1 b2 b3 b4 b5 b6 b7 b8 b9 rest h0 h1 h2 h3 h4 h5 h6 h7 h8 h9
    simp only [read_varint, List.drop_zero]
    rw [readVarintGo, if_neg h0, if_neg (by omega : ¬ 64 ≤ 0 + 7)]
    rw [readVarintGo, if_neg h1, if_neg (by omega : ¬ 64 ≤ 0 + 7 + 7)]
    rw [readVarintGo, if_neg h2, if_neg (by omega : ¬ 64 ≤ 0 + 7 + 7 + 7)]
    rw [readVarintGo, if_neg h3, if_neg (by omega : ¬ 64 ≤ 0 + 7 + 7 + 7 + 7)]
    rw [readVarintGo, if_neg h4,
      if_neg (by omega : ¬ 64 ≤ 0 + 7 + 7 + 7 + 7 + 7)]
    rw [readVarintGo, if_neg h5,
      if_neg (by omega : ¬ 64 ≤ 0 + 7 + 7 + 7 + 7 + 7 + 7)]
    rw [readVarintGo, if_neg h6,
      if_neg (by omega : ¬ 64 ≤ 0 + 7 + 7 + 7 + 7 + 7 + 7 + 7)]
    rw [readVarintGo, if_neg h7,
      if_neg (by omega : ¬ 64 ≤ 0 + 7 + 7 + 7 + 7 + 7 + 7 + 7 + 7)]
    rw [readVarintGo, if_neg h8,
      if_neg (by omega : ¬ 64 ≤ 0 + 7 + 7 + 7 + 7 + 7 + 7 + 7 + 7 + 7)]
    rw [readVarintGo, if_neg h9,
      if_pos (by omega : 64 ≤ 0 + 7 + 7 + 7 + 7 + 7 + 7 + 7 + 7 + 7 + 7)]

/-- C4 witness: the truncation and shift-cap clauses applied at concrete
inputs. -/
theorem C4_read_varint_correct_witness :
    (read_varint [135, 200] 0).1 = none ∧
    (read_varint [255, 255, 255, 255, 255, 255, 255, 255, 255, 255, 1] 0).1 =
      none := by
  refine ⟨?_, ?_⟩
  · exact C4_read_varint_correct.2.2.2.2.2.1 [135, 200] 0 (by decide)
  · exact C4_read_varint_correct.2.2.2.2.2.2 255 255 255 255 255 255 255 255
      255 255 [1] (by decide) (by decide) (by decide) (by decide) (by decide)
      (by decide) (by decide) (by decide) (by decide) (by decide)

/-- Two's-complement reinterpretation `u64 as i64` (src/signal/backup/mod.rs:555). -/
def u64AsI64 (d : Nat) : Int :=
  if d < 2 ^ 63 then (d : Int) else (d : Int) - 2 ^ 64

/-- Lowercase hex digit. -/
def hexDigitChar (n : Nat) : Char :=
  if n < 10 then Char.ofNat (48 + n) else Char.ofNat (87 + n)

/-- One byte as two lowercase hex digits. -/
def byteToHex (b : Nat) : List Char :=
  [hexDigitChar (b / 16 % 16), hexDigitChar (b % 16)]

/-- `hex::encode`. -/
def hexEncode (bytes : List Nat) : String :=
  ⟨(bytes.map byteToHex).flatten⟩

/-- `uuid::Uuid::to_string()`: lowercase hyphenated 8-4-4-4-12 rendering of
16 bytes. -/
def uuidToString (bytes : List Nat) : String :=
  hexEncode (bytes.take 4) ++ "-" ++ hexEncode ((bytes.drop 4).take 2) ++ "-" ++
    hexEncode ((bytes.drop 6).take 2) ++ "-" ++
    hexEncode ((bytes.drop 8).take 2) ++ "-" ++ hexEncode (bytes.drop 10)

/-- Strict UTF-8 decoding as Rust `String::from_utf8` (shortest-form only, no
surrogates, max U+10FFFF). -/
def utf8DecodeGo : List Nat → Option (List Char)
  | [] => some []
  | b :: rest =>
    if b < 128 then
      (utf8DecodeGo rest).map (fun cs => Char.ofNat b :: cs)
    else if b < 194 then
      none
    else if b < 224 then
      match rest with
      | c1 :: rest2 =>
        if 128 ≤ c1 ∧ c1 < 192 then
          (utf8DecodeGo rest2).map
            (fun cs => Char.ofNat (((b &&& 31) <<< 6) ||| (c1 &&& 63)) :: cs)
        else none
      | [] => none
    else if b < 240 then
      match rest with
      | c1 :: c2 :: rest3 =>
        let lo1 := if b = 224 then 160 else 128
        let hi1 := if b = 237 then 160 else 192
        if (lo1 ≤ c1 ∧ c1 < hi1) ∧ (128 ≤ c2 ∧ c2 < 192) then
          (utf8DecodeGo rest3).map
            (fun cs => Char.ofNat
              (((b &&& 15) <<< 12) ||| ((c1 &&& 63) <<< 6) ||| (c2 &&& 63)) :: cs)
        else none
      | _ => none
    else if b < 245 then
      match rest with
      | c1 :: c2 :: c3 :: rest4 =>
        let lo1 := if b = 240 then 144 else 128
        let hi1 := if b = 244 then 144 else 192
        if (lo1 ≤ c1 ∧ c1 < hi1) ∧ (128 ≤ c2 ∧ c2 < 192) ∧
            (128 ≤ c3 ∧ c3 < 192) then
          (utf8DecodeGo rest4).map
            (fun cs => Char.ofNat
              (((b &&& 7) <<< 18) ||| ((c1 &&& 63) <<< 12) |||
                ((c2 &&& 63) <<< 6) ||| (c3 &&& 63)) :: cs)
        else none
      | _ => none
    else none
termination_by l => l.length
decreasing_by all_goals simp_wf <;> omega

/-- `String::from_utf8(bytes).ok()`. -/
def utf8Decode (bytes : List Nat) : Option String :=
  (utf8DecodeGo bytes).map List.asString

/-- `BackupMessage` (src/signal/backup/mod.rs:24). -/
structure BackupMessageM where
  id : String
  conversation_id : String
  sender_uuid : String
  body : Option String
  timestamp : Int
  is_outgoing : Bool
  deriving DecidableEq, Repr

/-- `BackupConversation` (src/signal/backup/mod.rs:34). -/
structure BackupConversationM where
  id : String
  recipient_uuid : Option String
  group_id : Option (List Nat)
  name : Option String
  deriving DecidableEq, Repr

/-- `BackupData` (src/signal/backup/mod.rs:17). -/
structure BackupDataM where
  messages : List BackupMessageM
  conversations : List BackupConversationM
  frame_count : Nat
  deriving DecidableEq, Repr

/-- Loop of `parse_text` (src/signal/backup/mod.rs:592).  The result's outer
`Option` is a Rust panic or non-termination (`none`); the inner value is the
function's own `Option<String>`.  Fuel exceeding the number of reachable loop
head offsets (each < `data.len()`) is only exhausted on runs whose offset
sequence revisits an offset, i.e. runs on which the Rust loop diverges. -/
def parseTextGo (data : List Nat) : Nat → Nat → Option (Option String)
  | 0, _ => none
  | fuel + 1, offset =>
    if offset < data.length then
      let tagByte := data.getD offset 0
      let wireType := tagByte &&& 7
      let fieldNumber := tagByte >>> 3
      let o1 := offset + 1
      if fieldNumber = 1 ∧ wireType = 2 then
        match read_varint data o1 with
        | (some len, o2) =>
          let stop := uadd o2 len
          if stop ≤ data.length then
            match rustSlice data o2 stop with
            | some sub => some (utf8Decode sub)
            | none => none
          else
            parseTextGo data fuel o2
        | (none, o2) => parseTextGo data fuel o2
      else if wireType = 0 then
        parseTextGo data fuel (read_varint data o1).2
      else if wireType = 1 then
        parseTextGo data fuel (min (o1 + 8) data.length)
      else if wireType = 2 then
        match read_varint data o1 with
        | (some len, o2) => parseTextGo data fuel (min (uadd o2 len) data.length)
        | (none, o2) => parseTextGo data fuel o2
      else if wireType = 5 then
        parseTextGo data fuel (min (o1 + 4) data.length)
      else
        some none
    else
      some none

/-- `parse_text` (src/signal/backup/mod.rs:592). -/
def parse_text (data : List Nat) : Option (Option String) :=
  parseTextGo data (data.length + 1) 0

/-- Loop of `parse_standard_message` (src/signal/backup/mod.rs:560). -/
def parseStandardMessageGo (data : List Nat) : Nat → Nat → Option (Option String)
  | 0, _ => none
  | fuel + 1, offset =>
    if offset < data.length then
      let tagByte := data.getD offset 0
      let wireType := tagByte &&& 7
      let fieldNumber := tagByte >>> 3
      let o1 := offset + 1
      if fieldNumber = 2 ∧ wireType = 2 then
        match read_varint data o1 with
        | (some len, o2) =>
          let stop := uadd o2 len
          if stop ≤ data.length then
            match rustSlice data o2 stop with
            | some sub => parse_text sub
            | none => none
          else
            parseStandardMessageGo data fuel o2
        | (none, o2) => parseStandardMessageGo data fuel o2
      else if wireType = 0 then
        parseStandardMessageGo data fuel (read_varint data o1).2
      else if wireType = 1 then
        parseStandardMessageGo data fuel (min (o1 + 8) data.length)
      else if wireType = 2 then
        match read_varint data o1 with
        | (some len, o2) =>
          parseStandardMessageGo data fuel (min (uadd o2 len) data.length)
        | (none, o2) => parseStandardMessageGo data fuel o2
      else if wireType = 5 then
        parseStandardMessageGo data fuel (min (o1 + 4) data.length)
      else
        some none
    else
      some none

/-- `parse_standard_message` (src/signal/backup/mod.rs:560). -/
def parse_standard_message (data : List Nat) : Option (Option String) :=
  parseStandardMessageGo data (data.length + 1) 0

/-- Loop of `parse_chat_item` (src/signal/backup/mod.rs:502); the mutable
locals `chat_id`, `author_id`, `date_sent`, `body`, `is_outgoing` are threaded
as arguments. -/
def parseChatItemGo (data : List Nat) :
    Nat → Nat → Option Nat → Option Nat → Option Nat → Option String → Bool →
    Option (Option BackupMessageM)
  | 0, _, _, _, _, _, _ => none
  | fuel + 1, offset, chat_id, author_id, date_sent, body, is_outgoing =>
    if offset < data.length then
      let tagByte := data.getD offset 0
      let wireType := tagByte &&& 7
      let fieldNumber := tagByte >>> 3
      let o1 := offset + 1
      if fieldNumber = 1 ∧ wireType = 0 then
        let r := read_varint data o1
        parseChatItemGo data fuel r.2 r.1 author_id date_sent body is_outgoing
      else if fieldNumber = 2 ∧ wireType = 0 then
        let r := read_varint data o1
        parseChatItemGo data fuel r.2 chat_id r.1 date_sent body is_outgoing
      else if fieldNumber = 3 ∧ wireType = 0 then
        let r := read_varint data o1
        parseChatItemGo data fuel r.2 chat_id author_id r.1 body is_outgoing
      else if fieldNumber = 9 ∧ wireType = 2 then
        match read_varint data o1 with
        | (some len, o2) =>
          let stop := uadd o2 len
          parseChatItemGo data fuel (min stop data.length) chat_id author_id
            date_sent body (if stop ≤ data.length then true else is_outgoing)
        | (none, o2) =>
          parseChatItemGo data fuel o2 chat_id author_id date_sent body
            is_outgoing
      else if fieldNumber = 11 ∧ wireType = 2 then
        match read_varint data o1 with
        | (some len, o2) =>
          let stop := uadd o2 len
          if stop ≤ data.length then
            match rustSlice data o2 stop with
            | some sub =>
              match parse_standard_message sub with
              | some b =>
                parseChatItemGo data fuel (min stop data.length) chat_id
                  author_id date_sent b is_outgoing
              | none => none
            | none => none
          else
            parseChatItemGo data fuel (min stop data.length) chat_id author_id
              date_sent body is_outgoing
        | (none, o2) =>
          parseChatItemGo data fuel o2 chat_id author_id date_sent body
            is_outgoing
      else if wireType = 0 then
        parseChatItemGo data fuel (read_varint data o1).2 chat_id author_id
          date_sent body is_outgoing
      else if wireType = 1 then
        parseChatItemGo data fuel (min (o1 + 8) data.length) chat_id author_id
          date_sent body is_outgoing
      else if wireType = 2 then
        match read_varint data o1 with
        | (some len, o2) =>
          parseChatItemGo data fuel (min (uadd o2 len) data.length) chat_id
            author_id date_sent body is_outgoing
        | (none, o2) =>
          parseChatItemGo data fuel o2 chat_id author_id date_sent body
            is_outgoing
      else if wireType = 5 then
        parseChatItemGo data fuel (min (o1 + 4) data.length) chat_id author_id
          date_sent body is_outgoing
      else
        some (some
          { id := (date_sent.map toString).getD ""
            conversation_id := (chat_id.map toString).getD ""
            sender_uuid := (author_id.map toString).getD ""
            body := body
            timestamp := (date_sent.map u64AsI64).getD 0
            is_outgoing := is_outgoing })
    else
      some (some
        { id := (date_sent.map toString).getD ""
          conversation_id := (chat_id.map toString).getD ""
          sender_uuid := (author_id.map toString).getD ""
          body := body
          timestamp := (date_sent.map u64AsI64).getD 0
          is_outgoing := is_outgoing })

/-- `parse_chat_item` (src/signal/backup/mod.rs:502). -/
def parse_chat_item (data : List Nat) : Option (Option BackupMessageM) :=
  parseChatItemGo data (data.length + 1) 0 none none none none false

/-- Loop of `parse_contact` (src/signal/backup/mod.rs:416); locals `aci` and
`profile_given_name` are threaded. -/
def parseContactGo (data : List Nat) :
    Nat → Nat → Option (List Nat) → Option String →
    Option (Option String × Option String)
  | 0, _, _, _ => none
  | fuel + 1, offset, aci, profile_given_name =>
    if offset < data.length then
      let tagByte := data.getD offset 0
      let wireType := tagByte &&& 7
      let fieldNumber := tagByte >>> 3
      let o1 := offset + 1
      if fieldNumber = 1 ∧ wireType = 2 then
        match read_varint data o1 with
        | (some len, o2) =>
          let stop := uadd o2 len
          if stop ≤ data.length ∧ len = 16 then
            match rustSlice data o2 stop with
            | some sub =>
              parseContactGo data fuel (min stop data.length) (some sub)
                profile_given_name
            | none => none
          else
            parseContactGo data fuel (min stop data.length) aci
              profile_given_name
        | (none, o2) => parseContactGo data fuel o2 aci profile_given_name
      else if fieldNumber = 11 ∧ wireType = 2 then
        match read_varint data o1 with
        | (some len, o2) =>
          let stop := uadd o2 len
          if stop ≤ data.length then
            match rustSlice data o2 stop with
            | some sub =>
              parseContactGo data fuel (min stop data.length) aci
                (utf8Decode sub)
            | none => none
          else
            parseContactGo data fuel (min stop data.length) aci
              profile_given_name
        | (none, o2) => parseContactGo data fuel o2 aci profile_given_name
      else if wireType = 0 then
        parseContactGo data fuel (read_varint data o1).2 aci profile_given_name
      else if wireType = 1 then
        parseContactGo data fuel (min (o1 + 8) data.length) aci
          profile_given_name
      else if wireType = 2 then
        match read_varint data o1 with
        | (some len, o2) =>
          parseContactGo data fuel (min (uadd o2 len) data.length) aci
            profile_given_name
        | (none, o2) => parseContactGo data fuel o2 aci profile_given_name
      else if wireType = 5 then
        parseContactGo data fuel (min (o1 + 4) data.length) aci
          profile_given_name
      else
        some (aci.map (fun bytes =>
          if bytes.length = 16 then uuidToString bytes else hexEncode bytes),
          profile_given_name)
    else
      some (aci.map (fun bytes =>
        if bytes.length = 16 then uuidToString bytes else hexEncode bytes),
        profile_given_name)

/-- `parse_contact` (src/signal/backup/mod.rs:416); the Rust function always
returns `Some((uuid_str, profile_given_name))`, so the embedded value is the
pair itself (`none` is a panic or divergence). -/
def parse_contact (data : List Nat) : Option (Option String × Option String) :=
  parseContactGo data (data.length + 1) 0 none none

/-- Loop of `parse_group` (src/signal/backup/mod.rs:467). -/
def parseGroupGo (data : List Nat) :
    Nat → Nat → Option (List Nat) →
    Option (Option (List Nat × Option String))
  | 0, _, _ => none
  | fuel + 1, offset, master_key =>
    if offset < data.length then
      let tagByte := data.getD offset 0
      let wireType := tagByte &&& 7
      let fieldNumber := tagByte >>> 3
      let o1 := offset + 1
      if fieldNumber = 1 ∧ wireType = 2 then
        match read_varint data o1 with
        | (some len, o2) =>
          let stop := uadd o2 len
          if stop ≤ data.length then
            match rustSlice data o2 stop with
            | some sub => parseGroupGo data fuel (min stop data.length) (some sub)
            | none => none
          else
            parseGroupGo data fuel (min stop data.length) master_key
        | (none, o2) => parseGroupGo data fuel o2 master_key
      else if wireType = 0 then
        parseGroupGo data fuel (read_varint data o1).2 master_key
      else if wireType = 1 then
        parseGroupGo data fuel (min (o1 + 8) data.length) master_key
      else if wireType = 2 then
        match read_varint data o1 with
        | (some len, o2) =>
          parseGroupGo data fuel (min (uadd o2 len) data.length) master_key
        | (none, o2) => parseGroupGo data fuel o2 master_key
      else if wireType = 5 then
        parseGroupGo data fuel (min (o1 + 4) data.length) master_key
      else
        some (master_key.map (fun k => (k, none)))
    else
      some (master_key.map (fun k => (k, none)))

/-- `parse_group` (src/signal/backup/mod.rs:467). -/
def parse_group (data : List Nat) :
    Option (Option (List Nat × Option String)) :=
  parseGroupGo data (data.length + 1) 0 none

/-- Loop of `parse_recipient` (src/signal/backup/mod.rs:355).  Note that its
skip arms use unguarded `offset += …` (no `.min`), unlike the inner parsers. -/
def parseRecipientGo (data : List Nat) :
    Nat → Nat → Option Nat → Option String → Option String →
    Option (List Nat) → Option (Option BackupConversationM)
  | 0, _, _, _, _, _ => none
  | fuel + 1, offset, id, recipient_uuid, name, group_id =>
    if offset < data.length then
      let tagByte := data.getD offset 0
      let wireType := tagByte &&& 7
      let fieldNumber := tagByte >>> 3
      let o1 := offset + 1
      if fieldNumber = 1 ∧ wireType = 0 then
        let r := read_varint data o1
        parseRecipientGo data fuel r.2 r.1 recipient_uuid name group_id
      else if fieldNumber = 2 ∧ wireType = 2 then
        match read_varint data o1 with
        | (some len, o2) =>
          let stop := uadd o2 len
          if stop ≤ data.length then
            match rustSlice data o2 stop with
            | some sub =>
              match parse_contact sub with
              | some (uuid, contact_name) =>
                parseRecipientGo data fuel stop id uuid contact_name group_id
              | none => none
            | none => none
          else
            parseRecipientGo data fuel o2 id recipient_uuid name group_id
        | (none, o2) =>
          parseRecipientGo data fuel o2 id recipient_uuid name group_id
      else if fieldNumber = 3 ∧ wireType = 2 then
        match read_varint data o1 with
        | (some len, o2) =>
          let stop := uadd o2 len
          if stop ≤ data.length then
            match rustSlice data o2 stop with
            | some sub =>
              match parse_group sub with
              | some (some (gid, group_name)) =>
                parseRecipientGo data fuel stop id recipient_uuid group_name
                  (some gid)
              | some none =>
                parseRecipientGo data fuel stop id recipient_uuid name group_id
              | none => none
            | none => none
          else
            parseRecipientGo data fuel o2 id recipient_uuid name group_id
        | (none, o2) =>
          parseRecipientGo data fuel o2 id recipient_uuid name group_id
      else if wireType = 0 then
        parseRecipientGo data fuel (read_varint data o1).2 id recipient_uuid
          name group_id
      else if wireType = 1 then
        parseRecipientGo data fuel (o1 + 8) id recipient_uuid name group_id
      else if wireType = 2 then
        match read_varint data o1 with
        | (some len, o2) =>
          parseRecipientGo data fuel (uadd o2 len) id recipient_uuid name
            group_id
        | (none, o2) =>
          parseRecipientGo data fuel o2 id recipient_uuid name group_id
      else if wireType = 5 then
        parseRecipientGo data fuel (o1 + 4) id recipient_uuid name group_id
      else
        some (id.map (fun i =>
          { id := toString i
            recipient_uuid := recipient_uuid
            group_id := group_id
            name := name }))
    else
      some (id.map (fun i =>
        { id := toString i
          recipient_uuid := recipient_uuid
          group_id := group_id
          name := name }))

/-- `parse_recipient` (src/signal/backup/mod.rs:355). -/
def parse_recipient (data : List Nat) : Option (Option BackupConversationM) :=
  parseRecipientGo data (data.length + 1) 0 none none none none

/-- Loop of `parse_frame` (src/signal/backup/mod.rs:304); the two
accumulating vectors are threaded.  The Rust function's `Result` is always
`Ok`, so the embedded value is the updated pair (`none` is a panic or
divergence).  `end = field_offset + len as usize` is computed with wrapping
`usize` arithmetic (`uadd`); a wrapped `end` below `field_offset` that still
passes `end <= data.len()` makes the slice `&data[field_offset..end]` panic. -/
def parseFrameGo (data : List Nat) :
    Nat → Nat → List BackupMessageM → List BackupConversationM →
    Option (List BackupMessageM × List BackupConversationM)
  | 0, _, _, _ => none
  | fuel + 1, offset, messages, conversations =>
    if offset < data.length then
      let tagByte := data.getD offset 0
      let wireType := tagByte &&& 7
      let fieldNumber := tagByte >>> 3
      let o1 := offset + 1
      if fieldNumber = 2 ∧ wireType = 2 then
        match read_varint data o1 with
        | (some len, o2) =>
          let stop := uadd o2 len
          if stop ≤ data.length then
            match rustSlice data o2 stop with
            | some sub =>
              match parse_recipient sub with
              | some (some conv) =>
                parseFrameGo data fuel stop messages (conversations ++ [conv])
              | some none => parseFrameGo data fuel stop messages conversations
              | none => none
            | none => none
          else
            parseFrameGo data fuel o2 messages conversations
        | (none, o2) => parseFrameGo data fuel o2 messages conversations
      else if fieldNumber = 4 ∧ wireType = 2 then
        match read_varint data o1 with
        | (some len, o2) =>
          let stop := uadd o2 len
          if stop ≤ data.length then
            match rustSlice data o2 stop with
            | some sub =>
              match parse_chat_item sub with
              | some (some msg) =>
                parseFrameGo data fuel stop (messages ++ [msg]) conversations
              | some none => parseFrameGo data fuel stop messages conversations
              | none => none
            | none => none
          else
            parseFrameGo data fuel o2 messages conversations
        | (none, o2) => parseFrameGo data fuel o2 messages conversations
      else if wireType = 0 then
        parseFrameGo data fuel (read_varint data o1).2 messages conversations
      else if wireType = 1 then
        parseFrameGo data fuel (o1 + 8) messages conversations
      else if wireType = 2 then
        match read_varint data o1 with
        | (some len, o2) =>
          parseFrameGo data fuel (uadd o2 len) messages conversations
        | (none, o2) => parseFrameGo data fuel o2 messages conversations
      else if wireType = 5 then
        parseFrameGo data fuel (o1 + 4) messages conversations
      else
        some (messages, conversations)
    else
      some (messages, conversations)

/-- `parse_frame` (src/signal/backup/mod.rs:304). -/
def parse_frame (data : List Nat) (messages : List BackupMessageM)
    (conversations : List BackupConversationM) :
    Option (List BackupMessageM × List BackupConversationM) :=
  parseFrameGo data (data.length + 1) 0 messages conversations

/-- The frame-scanning loop of `parse_backup` (src/signal/backup/mod.rs:259),
acting on the already gzip-decompressed plaintext (decompression itself is
done by the external `flate2` crate).  `offset + frame_len` is wrapping
`usize` arithmetic; the subsequent slice `&decompressed[offset..offset+len]`
panics when the wrapped end lies below `offset`. -/
def parseBackupFramesGo (data : List Nat) :
    Nat → Nat → List BackupMessageM → List BackupConversationM → Nat →
    Option BackupDataM
  | 0, _, _, _, _ => none
  | fuel + 1, offset, messages, conversations, frame_count =>
    if offset < data.length then
      match read_varint data offset with
      | (none, _) => some ⟨messages, conversations, frame_count⟩
      | (some len, o2) =>
        let stop := uadd o2 len
        if stop > data.length then
          some ⟨messages, conversations, frame_count⟩
        else
          match rustSlice data o2 stop with
          | none => none
          | some frame =>
            match parse_frame frame messages conversations with
            | none => none
            | some (messages2, conversations2) =>
              parseBackupFramesGo data fuel stop messages2 conversations2
                (frame_count + 1)
    else
      some ⟨messages, conversations, frame_count⟩

/-- `parse_backup` after decompression (src/signal/backup/mod.rs:259):
scans length-delimited frames from the plaintext. -/
def parse_backup_frames (data : List Nat) : Option BackupDataM :=
  parseBackupFramesGo data (data.length + 1) 0 [] [] 0

/-- C5: the claim says `parse_backup` terminates without raising on every
decompressed input.  It does not: a frame whose length varint decodes to
2^64−1 makes `offset + frame_len` wrap (release builds; debug builds panic at
the add), the wrapped end 9 < offset 10 passes the `>` boundary check, and
slicing `&decompressed[10..9]` panics.  The second conjunct records the
varint decode feeding the wrap; the third shows the wrapped bound check. -/
theorem C5_parse_backup_panics :
    parse_backup_frames [255, 255, 255, 255, 255, 255, 255, 255, 255, 1] =
      none ∧
    read_varint [255, 255, 255, 255, 255, 255, 255, 255, 255, 1] 0 =
      (some (2 ^ 64 - 1), 10) ∧
    uadd 10 (2 ^ 64 - 1) = 9 := by
  refine ⟨by decide, by decide, by decide⟩

/-- `ConversationType` (src/storage/conversations.rs:7). -/
inductive ConversationTypeM where
  | private'
  | group
  | noteToSelf
  deriving DecidableEq, Repr

/-- Storage `Conversation` (src/storage/conversations.rs:32); timestamps are
embedded as `Int` (Unix epoch). -/
structure ConversationM where
  id : String
  conversation_type : ConversationTypeM
  name : String
  avatar_path : Option String
  last_message : Option String
  last_message_at : Option Int
  unread_count : Nat
  is_pinned : Bool
  is_muted : Bool
  muted_until : Option Int
  is_archived : Bool
  is_blocked : Bool
  disappearing_messages_timer : Nat
  draft : Option String
  created_at : Int
  updated_at : Int
  deriving DecidableEq, Repr

/-- `MessageDirection` (src/signal/messages.rs:8). -/
inductive MessageDirectionM where
  | incoming
  | outgoing
  deriving DecidableEq, Repr

/-- `MessageStatus` (src/signal/messages.rs:15). -/
inductive MessageStatusM where
  | sending
  | sent
  | delivered
  | read
  | failed
  deriving DecidableEq, Repr

/-- `Content` (src/signal/messages.rs:77); only the `Text` variant is
produced by backup import. -/
inductive ContentM where
  | text (body : String) (mentions : List String)
  deriving DecidableEq, Repr

/-- Storage `Message` (src/signal/messages.rs:30). -/
structure MessageM where
  id : String
  conversation_id : String
  sender : String
  direction : MessageDirectionM
  status : MessageStatusM
  content : ContentM
  sent_at : Int
  server_timestamp : Option Int
  delivered_at : Option Int
  read_at : Option Int
  quote : Option String
  reactions : List String
  expires_in_seconds : Option Int
  expires_at : Option Int
  deriving DecidableEq, Repr

/-- External-library and environment primitives consumed by
`import_backup_data`: chrono timestamp construction, `Utc::now()`, base64
encoding, database availability, and the success/failure outcome of the two
repositories' `save` calls. -/
structure ImportPrims where
  tsMillis : Int → Option Int
  tsSecs : Int → Option Int
  now : Int
  base64Encode : List Nat → String
  dbAvailable : Bool
  convSaveOk : ConversationM → Bool
  msgSaveOk : MessageM → Bool

/-- `convert_backup_conversation` (src/signal/backup/mod.rs:128). -/
def convert_backup_conversation (p : ImportPrims)
    (backup : BackupConversationM) : ConversationM :=
  let typeAndId : ConversationTypeM × String :=
    if backup.group_id.isSome then
      (ConversationTypeM.group,
        (backup.group_id.map p.base64Encode).getD backup.id)
    else
      match backup.recipient_uuid with
      | some uuid => (ConversationTypeM.private', uuid)
      | none => (ConversationTypeM.private', backup.id)
  let name := backup.name.getD
    (if typeAndId.1 = ConversationTypeM.group then "Group"
     else backup.recipient_uuid.getD "Unknown")
  { id := typeAndId.2
    conversation_type := typeAndId.1
    name := name
    avatar_path := none
    last_message := none
    last_message_at := none
    unread_count := 0
    is_pinned := false
    is_muted := false
    muted_until := none
    is_archived := false
    is_blocked := false
    disappearing_messages_timer := 0
    draft := none
    created_at := p.now
    updated_at := p.now }

/-- `convert_backup_message` (src/signal/backup/mod.rs:173). -/
def convert_backup_message (p : ImportPrims) (backup : BackupMessageM)
    (conv_info : Option BackupConversationM) : MessageM :=
  let conversation_id :=
    match conv_info with
    | some conv =>
      if conv.group_id.isSome then
        (conv.group_id.map p.base64Encode).getD backup.conversation_id
      else
        match conv.recipient_uuid with
        | some uuid => uuid
        | none => backup.conversation_id
    | none => backup.conversation_id
  let sender := if backup.is_outgoing then "self" else backup.sender_uuid
  let direction :=
    if backup.is_outgoing then MessageDirectionM.outgoing
    else MessageDirectionM.incoming
  let sent_at := (p.tsMillis backup.timestamp).getD
    ((p.tsSecs backup.timestamp).getD p.now)
  { id := backup.id
    conversation_id := conversation_id
    sender := sender
    direction := direction
    status := MessageStatusM.read
    content := ContentM.text (backup.body.getD "") []
    sent_at := sent_at
    server_timestamp := some sent_at
    delivered_at := some sent_at
    read_at := some sent_at
    quote := none
    reactions := []
    expires_in_seconds := none
    expires_at := none }

/-- The `conv_map` HashMap built in `import_backup_data`
(src/signal/backup/mod.rs:79): on duplicate ids the later entry wins. -/
def convMapGet (conversations : List BackupConversationM) (key : String) :
    Option BackupConversationM :=
  conversations.reverse.find? (fun c => c.id == key)

/-- The conversation-import loop of `import_backup_data`
(src/signal/backup/mod.rs:85): a failed save is logged and skipped.  Returns
the imported count and the successfully saved records in order. -/
def importConversationsLoop (p : ImportPrims) :
    List BackupConversationM → Nat × List ConversationM
  | [] => (0, [])
  | backup_conv :: rest =>
    let conversation := convert_backup_conversation p backup_conv
    let r := importConversationsLoop p rest
    if p.convSaveOk conversation then (r.1 + 1, conversation :: r.2) else r

/-- The message-import loop of `import_backup_data`
(src/signal/backup/mod.rs:101): messages with `body == None` are skipped
before any conversion or save; a failed save is logged and skipped. -/
def importMessagesLoop (p : ImportPrims)
    (conversations : List BackupConversationM) :
    List BackupMessageM → Nat × List MessageM
  | [] => (0, [])
  | backup_msg :: rest =>
    if backup_msg.body.isNone then
      importMessagesLoop p conversations rest
    else
      let conv_info := convMapGet conversations backup_msg.conversation_id
      let message := convert_backup_message p backup_msg conv_info
      let r := importMessagesLoop p conversations rest
      if p.msgSaveOk message then (r.1 + 1, message :: r.2) else r

/-- `import_backup_data` (src/signal/backup/mod.rs:65).  The result carries
the two counts the Rust function returns plus the records actually handed to
the repositories' `save` (the observable storage effect). -/
def import_backup_data (p : ImportPrims) (backup_data : BackupDataM) :
    Except SignalError (Nat × Nat × List ConversationM × List MessageM) :=
  if p.dbAvailable then
    let c := importConversationsLoop p backup_data.conversations
    let m := importMessagesLoop p backup_data.conversations
      backup_data.messages
    .ok (c.1, m.1, c.2, m.2)
  else
    .error (SignalError.storageError
      "Database not available for backup import")

theorem importMessagesLoop_filter_body (p : ImportPrims)
    (conversations : List BackupConversationM) (msgs : List BackupMessageM) :
    importMessagesLoop p conversations
      (msgs.filter (fun m => m.body.isSome)) =
    importMessagesLoop p conversations msgs := by
  induction msgs with
  | nil => rfl
  | cons m rest ih =>
    by_cases hb : m.body.isSome
    · rw [List.filter_cons_of_pos (by simpa using hb)]
      have hnn : ¬ m.body.isNone := by
        cases h : m.body <;> simp_all
      simp only [importMessagesLoop, if_neg hnn, ih]
    · rw [List.filter_cons_of_neg (by simpa using hb)]
      have hn : m.body.isNone := by
        cases h : m.body <;> simp_all
      simp only [importMessagesLoop, if_pos hn, ih]

theorem importMessagesLoop_sources (p : ImportPrims)
    (conversations : List BackupConversationM) (msgs : List BackupMessageM) :
    ∀ mm ∈ (importMessagesLoop p conversations msgs).2,
      ∃ bm ∈ msgs, bm.body.isSome ∧
        mm = convert_backup_message p bm
          (convMapGet conversations bm.conversation_id) := by
  induction msgs with
  | nil => intro mm hmm; simp [importMessagesLoop] at hmm
  | cons m rest ih =>
    intro mm hmm
    by_cases hn : m.body.isNone
    · simp only [importMessagesLoop, if_pos hn] at hmm
      obtain ⟨bm, hbm, hsome, heq⟩ := ih mm hmm
      exact ⟨bm, List.mem_cons_of_mem m hbm, hsome, heq⟩
    · simp only [importMessagesLoop, if_neg hn] at hmm
      by_cases hs : p.msgSaveOk
          (convert_backup_message p m (convMapGet conversations
            m.conversation_id))
      · rw [if_pos hs] at hmm
        rcases List.mem_cons.mp hmm with heq | hmem
        · refine ⟨m, List.mem_cons_self m rest, ?_, heq⟩
          cases h : m.body <;> simp_all
        · obtain ⟨bm, hbm, hsome, heq2⟩ := ih mm hmem
          exact ⟨bm, List.mem_cons_of_mem m hbm, hsome, heq2⟩
      · rw [if_neg hs] at hmm
        obtain ⟨bm, hbm, hsome, heq2⟩ := ih mm hmm
        exact ⟨bm, List.mem_cons_of_mem m hbm, hsome, heq2⟩

/-- C10: `import_backup_data` never saves a message whose body is absent.
Removing every body-`None` `BackupMessage` from the input changes neither the
counts nor the saved records; every saved message stems from a body-`Some`
source message; the imported-conversation count ignores the message list
entirely; and `parse_chat_item` can indeed produce a body-`None` message
candidate (e.g. on an empty chat-item record). -/
theorem C10_import_skips_bodyless (p : ImportPrims) (bd : BackupDataM) :
    (import_backup_data p
      { messages := bd.messages.filter (fun m => m.body.isSome)
        conversations := bd.conversations
        frame_count := bd.frame_count } = import_backup_data p bd) ∧
    (∀ mm ∈ (importMessagesLoop p bd.conversations bd.messages).2,
      ∃ bm ∈ bd.messages, bm.body.isSome ∧
        mm = convert_backup_message p bm
          (convMapGet bd.conversations bm.conversation_id)) ∧
    (∀ (msgs2 : List BackupMessageM) (fc2 : Nat),
      (importConversationsLoop p bd.conversations).1 =
        (importConversationsLoop p
          (BackupDataM.mk msgs2 bd.conversations fc2).conversations).1) ∧
    (parse_chat_item [] = some (some
      { id := ""
        conversation_id := ""
        sender_uuid := ""
        body := none
        timestamp := 0
        is_outgoing := false })) := by
  refine ⟨?_, importMessagesLoop_sources p bd.conversations bd.messages,
    fun _ _ => rfl, by decide⟩
  simp only [import_backup_data, importMessagesLoop_filter_body]

/-- C10 witness: the source-tracking clause applied to a concrete import. -/
theorem C10_import_skips_bodyless_witness :
    ∃ bm ∈ [BackupMessageM.mk "1" "2" "3" (some "hi") 5 false],
      bm.body.isSome ∧
        convert_backup_message
          { tsMillis := fun _ => none
            tsSecs := fun _ => none
            now := 0
            base64Encode := fun _ => ""
            dbAvailable := true
            convSaveOk := fun _ => true
            msgSaveOk := fun _ => true }
          (BackupMessageM.mk "1" "2" "3" (some "hi") 5 false)
          (convMapGet [] "2") =
        convert_backup_message
          { tsMillis := fun _ => none
            tsSecs := fun _ => none
            now := 0
            base64Encode := fun _ => ""
            dbAvailable := true
            convSaveOk := fun _ => true
            msgSaveOk := fun _ => true }
          bm (convMapGet [] bm.conversation_id) := by
  have h := (C10_import_skips_bodyless
    { tsMillis := fun _ => none
      tsSecs := fun _ => none
      now := 0
      base64Encode := fun _ => ""
      dbAvailable := true
      convSaveOk := fun _ => true
      msgSaveOk := fun _ => true }
    (BackupDataM.mk [BackupMessageM.mk "1" "2" "3" (some "hi") 5 false] []
      0)).2.1
  obtain ⟨bm, hbm, hsome, heq⟩ := h
    (convert_backup_message
      { tsMillis := fun _ => none
        tsSecs := fun _ => none
        now := 0
        base64Encode := fun _ => ""
        dbAvailable := true
        convSaveOk := fun _ => true
        msgSaveOk := fun _ => true }
      (BackupMessageM.mk "1" "2" "3" (some "hi") 5 false)
      (convMapGet [] "2"))
    (by simp [importMessagesLoop, convMapGet])
  exact ⟨bm, hbm, hsome, heq⟩

/-- The cryptographic primitives `src/signal/backup/crypto.rs` takes from
external crates (`hkdf`, `hmac`, `sha2`, `aes`/`cbc`): HKDF-SHA256 expansion
(ikm, info, output length), HMAC-SHA256 (key, data), and AES-256-CBC
decryption with PKCS7 unpadding (key, iv, ciphertext; `none` is a
decryption/unpadding failure). -/
structure CryptoPrims where
  hkdfSha256Expand : List Nat → List Nat → Nat → List Nat
  hmacSha256 : List Nat → List Nat → List Nat
  aesCbcDecryptPkcs7 : List Nat → List Nat → List Nat → Option (List Nat)

/-- `DerivedKeys` (src/signal/backup/crypto.rs:17). -/
structure DerivedKeys where
  aes_key : List Nat
  hmac_key : List Nat
  deriving DecidableEq, Repr

/-- `derive_backup_id` (src/signal/backup/crypto.rs:22): HKDF-SHA256
expansion of the backup key to 16 bytes, with info the fixed domain string
followed by the raw 16 ACI bytes (`aci.as_bytes()`). -/
def derive_backup_id (p : CryptoPrims) (backup_key : List Nat)
    (aci : List Nat) : List Nat :=
  p.hkdfSha256Expand backup_key
    (asciiBytes "20241024_SIGNAL_BACKUP_ID:" ++ aci) 16

/-- `derive_message_backup_keys` (src/signal/backup/crypto.rs:40): a 64-byte
HKDF-SHA256 expansion split into a 32-byte HMAC key and a 32-byte AES key. -/
def derive_message_backup_keys (p : CryptoPrims) (backup_key : List Nat)
    (backup_id : List Nat) : DerivedKeys :=
  let full_key := p.hkdfSha256Expand backup_key
    (asciiBytes "20241007_SIGNAL_BACKUP_ENCRYPT_MESSAGE_BACKUP:" ++ backup_id)
    64
  { hmac_key := full_key.take 32
    aes_key := full_key.drop 32 }

/-- The IV component of the encrypted layout `IV(16) ‖ ciphertext ‖ tag(32)`
(src/signal/backup/crypto.rs:79, `split_at(IV_LEN)`). -/
def backupIv (data : List Nat) : List Nat :=
  data.take 16

/-- The ciphertext component (src/signal/backup/crypto.rs:80,
`rest.split_at(rest.len() - MAC_LEN)`). -/
def backupCiphertext (data : List Nat) : List Nat :=
  (data.drop 16).take ((data.drop 16).length - 32)

/-- The trailing 32-byte tag component (src/signal/backup/crypto.rs:80). -/
def backupMac (data : List Nat) : List Nat :=
  (data.drop 16).drop ((data.drop 16).length - 32)

/-- The HMAC-SHA256 tag `decrypt_backup` recomputes over `IV ‖ ciphertext`
with the derived HMAC key (src/signal/backup/crypto.rs:85, the two `update`
calls feed the concatenation). -/
def backupHmacTag (p : CryptoPrims) (data backup_key aci : List Nat) :
    List Nat :=
  p.hmacSha256
    (derive_message_backup_keys p backup_key
      (derive_backup_id p backup_key aci)).hmac_key
    (backupIv data ++ backupCiphertext data)

/-- `decrypt_backup` (src/signal/backup/crypto.rs:62).  The dead error arms
of the Rust code (HMAC key length, IV length, AES key/IV construction, all
impossible for the fixed 32/16-byte inputs produced here) are not modelled;
`aesCbcDecryptPkcs7 = none` is the `decrypt_padded_mut` failure. -/
def decrypt_backup (p : CryptoPrims) (encrypted_data : List Nat)
    (ephemeral_backup_key : List Nat) (aci : List Nat) :
    Except SignalError (List Nat) :=
  if encrypted_data.length < 48 then
    .error (SignalError.cryptoError "Encrypted data too short")
  else if backupHmacTag p encrypted_data ephemeral_backup_key aci =
      backupMac encrypted_data then
    match p.aesCbcDecryptPkcs7
        (derive_message_backup_keys p ephemeral_backup_key
          (derive_backup_id p ephemeral_backup_key aci)).aes_key
        (backupIv encrypted_data) (backupCiphertext encrypted_data) with
    | some plaintext => .ok plaintext
    | none => .error (SignalError.cryptoError "AES decryption failed")
  else
    .error (SignalError.cryptoError
      "HMAC verification failed - backup may be corrupted or key is wrong")

/-- C1: `decrypt_backup` is fail-closed.  Inputs shorter than 48 bytes are
rejected with a `CryptoError` and the result does not depend on any
cryptographic primitive (no HMAC or AES is computed); for inputs of at least
48 bytes split as IV(16) ‖ ciphertext ‖ tag(32), a recomputed-HMAC/tag
mismatch yields a `CryptoError` and the result does not depend on the AES
primitive (AES never runs); AES-CBC decryption with PKCS7 unpadding happens
exactly when the tag matches. -/
theorem C1_decrypt_backup_fail_closed :
    (∀ (p q : CryptoPrims) (data key aci : List Nat), data.length < 48 →
      decrypt_backup p data key aci =
        .error (SignalError.cryptoError "Encrypted data too short") ∧
      decrypt_backup p data key aci = decrypt_backup q data key aci) ∧
    (∀ (p q : CryptoPrims) (data key aci : List Nat), 48 ≤ data.length →
      p.hkdfSha256Expand = q.hkdfSha256Expand →
      p.hmacSha256 = q.hmacSha256 →
      backupHmacTag p data key aci ≠ backupMac data →
      decrypt_backup p data key aci =
        .error (SignalError.cryptoError
          "HMAC verification failed - backup may be corrupted or key is wrong")
        ∧
      decrypt_backup p data key aci = decrypt_backup q data key aci) ∧
    (∀ (p : CryptoPrims) (data key aci : List Nat), 48 ≤ data.length →
      backupHmacTag p data key aci = backupMac data →
      decrypt_backup p data key aci =
        match p.aesCbcDecryptPkcs7
            (derive_message_backup_keys p key
              (derive_backup_id p key aci)).aes_key
            (backupIv data) (backupCiphertext data) with
        | some plaintext => .ok plaintext
        | none => .error (SignalError.cryptoError "AES decryption failed")) := by
  refine ⟨?_, ?_, ?_⟩
  · intro p q data key aci h
    constructor
    · simp [decrypt_backup, if_pos h]
    · simp [decrypt_backup, if_pos h]
  · intro p q data key aci h hkdf hmac hne
    have hq : backupHmacTag q data key aci = backupHmacTag p data key aci := by
      simp [backupHmacTag, derive_message_backup_keys, derive_backup_id,
        hkdf, hmac]
    constructor
    · simp [decrypt_backup, if_neg (by omega : ¬ data.length < 48),
        if_neg hne]
    · simp only [decrypt_backup, if_neg (by omega : ¬ data.length < 48)]
      rw [if_neg hne, if_neg (hq ▸ hne)]
  · intro p data key aci h heq
    simp only [decrypt_backup, if_neg (by omega : ¬ data.length < 48),
      if_pos heq]

/-- C1 witness: the short-input and tag-mismatch clauses applied at concrete
inputs (zero-valued primitives, a 16-byte input, and a 48-byte input whose
stored tag differs from the recomputed one). -/
theorem C1_decrypt_backup_fail_closed_witness :
    decrypt_backup
      (CryptoPrims.mk (fun _ _ n => List.replicate n 0)
        (fun _ _ => List.replicate 32 0) (fun _ _ _ => some []))
      (List.replicate 16 0) (List.replicate 32 0) (List.replicate 16 0) =
      .error (SignalError.cryptoError "Encrypted data too short") ∧
    decrypt_backup
      (CryptoPrims.mk (fun _ _ n => List.replicate n 0)
        (fun _ _ => List.replicate 32 0) (fun _ _ _ => some []))
      (List.replicate 48 1) (List.replicate 32 0) (List.replicate 16 0) =
      .error (SignalError.cryptoError
        "HMAC verification failed - backup may be corrupted or key is wrong")
      := by
  constructor
  · exact (C1_decrypt_backup_fail_closed.1
      (CryptoPrims.mk (fun _ _ n => List.replicate n 0)
        (fun _ _ => List.replicate 32 0) (fun _ _ _ => some []))
      (CryptoPrims.mk (fun _ _ n => List.replicate n 0)
        (fun _ _ => List.replicate 32 0) (fun _ _ _ => some []))
      (List.replicate 16 0) (List.replicate 32 0) (List.replicate 16 0)
      (by decide)).1
  · exact (C1_decrypt_backup_fail_closed.2.1
      (CryptoPrims.mk (fun _ _ n => List.replicate n 0)
        (fun _ _ => List.replicate 32 0) (fun _ _ _ => some []))
      (CryptoPrims.mk (fun _ _ n => List.replicate n 0)
        (fun _ _ => List.replicate 32 0) (fun _ _ _ => some []))
      (List.replicate 48 1) (List.replicate 32 0) (List.replicate 16 0)
      (by decide) rfl rfl (by decide)).1

/-- C2: backup key derivation is a deterministic pure function of its
inputs: `derive_backup_id` is the 16-byte HKDF-SHA256 expansion with info the
fixed domain string `20241024_SIGNAL_BACKUP_ID:` concatenated with the raw 16
ACI bytes; `derive_message_backup_keys` is a 64-byte HKDF expansion with the
different fixed label `20241007_SIGNAL_BACKUP_ENCRYPT_MESSAGE_BACKUP:`
concatenated with the backup id, whose first 32 bytes are the HMAC key and
last 32 bytes the AES key; when the HKDF primitive returns its requested
output length the derived values have lengths 16/32/32; and identical inputs
always yield identical outputs. -/
theorem C2_key_derivation_pure :
    (∀ (p : CryptoPrims) (key aci : List Nat),
      derive_backup_id p key aci =
        p.hkdfSha256Expand key
          (asciiBytes "20241024_SIGNAL_BACKUP_ID:" ++ aci) 16) ∧
    (∀ (p : CryptoPrims) (key backup_id : List Nat),
      (derive_message_backup_keys p key backup_id).hmac_key =
        (p.hkdfSha256Expand key
          (asciiBytes "20241007_SIGNAL_BACKUP_ENCRYPT_MESSAGE_BACKUP:" ++
            backup_id) 64).take 32 ∧
      (derive_message_backup_keys p key backup_id).aes_key =
        (p.hkdfSha256Expand key
          (asciiBytes "20241007_SIGNAL_BACKUP_ENCRYPT_MESSAGE_BACKUP:" ++
            backup_id) 64).drop 32) ∧
    (∀ (p : CryptoPrims),
      (∀ ikm info n, (p.hkdfSha256Expand ikm info n).length = n) →
      ∀ (key aci : List Nat),
        (derive_backup_id p key aci).length = 16 ∧
        (derive_message_backup_keys p key
          (derive_backup_id p key aci)).hmac_key.length = 32 ∧
        (derive_message_backup_keys p key
          (derive_backup_id p key aci)).aes_key.length = 32) ∧
    (∀ (p : CryptoPrims) (key1 key2 aci1 aci2 : List Nat),
      key1 = key2 → aci1 = aci2 →
      derive_backup_id p key1 aci1 = derive_backup_id p key2 aci2 ∧
      derive_message_backup_keys p key1 (derive_backup_id p key1 aci1) =
        derive_message_backup_keys p key2 (derive_backup_id p key2 aci2)) := by
  refine ⟨fun p key aci => rfl, fun p key backup_id => ⟨rfl, rfl⟩, ?_, ?_⟩
  · intro p hlen key aci
    refine ⟨hlen key _ 16, ?_, ?_⟩
    · simp [derive_message_backup_keys, hlen]
    · simp [derive_message_backup_keys, hlen]
  · intro p key1 key2 aci1 aci2 hk ha
    subst hk; subst ha
    exact ⟨rfl, rfl⟩

/-- C2 witness: the length and determinism clauses applied at an all-zero
32-byte backup key and the nil (all-zero) ACI, with a primitive that honours
HKDF's output-length contract. -/
theorem C2_key_derivation_pure_witness :
    (derive_backup_id
      (CryptoPrims.mk (fun _ _ n => List.replicate n 0)
        (fun _ _ => List.replicate 32 0) (fun _ _ _ => some []))
      (List.replicate 32 0) (List.replicate 16 0)).length = 16 ∧
    derive_backup_id
      (CryptoPrims.mk (fun _ _ n => List.replicate n 0)
        (fun _ _ => List.replicate 32 0) (fun _ _ _ => some []))
      (List.replicate 32 0) (List.replicate 16 0) =
    derive_backup_id
      (CryptoPrims.mk (fun _ _ n => List.replicate n 0)
        (fun _ _ => List.replicate 32 0) (fun _ _ _ => some []))
      (List.replicate 32 0) (List.replicate 16 0) := by
  constructor
  · exact (C2_key_derivation_pure.2.2.1
      (CryptoPrims.mk (fun _ _ n => List.replicate n 0)
        (fun _ _ => List.replicate 32 0) (fun _ _ _ => some []))
      (fun ikm info n => by simp) (List.replicate 32 0)
      (List.replicate 16 0)).1
  · exact (C2_key_derivation_pure.2.2.2
      (CryptoPrims.mk (fun _ _ n => List.replicate n 0)
        (fun _ _ => List.replicate 32 0) (fun _ _ _ => some []))
      (List.replicate 32 0) (List.replicate 32 0) (List.replicate 16 0)
      (List.replicate 16 0) rfl rfl).1

/-- The primitives `encrypt_device_name` (src/signal/registration.rs:58)
takes from external crates: ECDH agreement (`calculate_agreement`, which can
fail), HMAC-SHA256 (total; `calculate_hmac256`'s init-error arm is dead since
HMAC accepts any key length), the AES-256-CTR keystream application
(key, iv, data), and public-key serialization. -/
structure DeviceNamePrims where
  calculateAgreement : List Nat → List Nat → Option (List Nat)
  hmacSha256 : List Nat → List Nat → List Nat
  aesCtrApplyKeystream : List Nat → List Nat → List Nat → List Nat
  serializePublicKey : List Nat → List Nat

/-- An ephemeral `KeyPair` as generated by `KeyPair::generate(csprng)`; the
random generation is modelled by passing the generated pair in. -/
structure KeyPairM where
  privateKey : List Nat
  publicKey : List Nat
  deriving DecidableEq, Repr

/-- The protobuf `DeviceName` (three optional byte fields). -/
structure DeviceNameM where
  ephemeral_public : Option (List Nat)
  synthetic_iv : Option (List Nat)
  ciphertext : Option (List Nat)
  deriving DecidableEq, Repr

/-- `encrypt_device_name` (src/signal/registration.rs:58). -/
def encrypt_device_name (p : DeviceNamePrims) (ephemeral_key_pair : KeyPairM)
    (device_name : List Nat) (identity_public : List Nat) :
    Except SignalError DeviceNameM :=
  match p.calculateAgreement ephemeral_key_pair.privateKey identity_public with
  | none => .error (SignalError.cryptoError "Key agreement failed")
  | some master_secret =>
    let key1 := p.hmacSha256 master_secret (asciiBytes "auth")
    let synthetic_iv := (p.hmacSha256 key1 device_name).take 16
    let key2 := p.hmacSha256 master_secret (asciiBytes "cipher")
    let cipher_key := p.hmacSha256 key2 synthetic_iv
    .ok { ephemeral_public :=
            some (p.serializePublicKey ephemeral_key_pair.publicKey)
          synthetic_iv := some synthetic_iv
          ciphertext := some (p.aesCtrApplyKeystream cipher_key
            (List.replicate 16 0) device_name) }

/-- Modelled from the spec (§4.2 device name encryption), amended per the
counterexample below: the synthetic IV is the FIRST 16 BYTES of
HMAC(auth key, plaintext name), not the full 32-byte HMAC output; everything
else is as the spec words it — ECDH shared secret, "auth"/"cipher" HMAC
labels, stream key = HMAC(cipher key, synthetic IV), AES-256-CTR under an
all-zero IV, output triple {ephemeral public key, synthetic IV,
ciphertext}. -/
def encryptDeviceNameSpec (p : DeviceNamePrims) (ephemeralPair : KeyPairM)
    (name : List Nat) (identityPublic : List Nat) :
    Except SignalError DeviceNameM :=
  match p.calculateAgreement ephemeralPair.privateKey identityPublic with
  | none => .error (SignalError.cryptoError "Key agreement failed")
  | some sharedSecret =>
    let authKey := p.hmacSha256 sharedSecret (asciiBytes "auth")
    let cipherKeySeed := p.hmacSha256 sharedSecret (asciiBytes "cipher")
    let syntheticIv := (p.hmacSha256 authKey name).take 16
    let streamKey := p.hmacSha256 cipherKeySeed syntheticIv
    let zeroIv := List.replicate 16 0
    .ok { ephemeral_public :=
            some (p.serializePublicKey ephemeralPair.publicKey)
          synthetic_iv := some syntheticIv
          ciphertext := some (p.aesCtrApplyKeystream streamKey zeroIv name) }

/-- C6 counterexample: the claim states the synthetic IV is
HMAC(auth key, plaintext name).  With an HMAC primitive producing 32-byte
output (as HMAC-SHA256 always does), the code's synthetic IV is the 16-byte
truncation, which differs from the full HMAC value. -/
theorem C6_synthetic_iv_not_full_hmac :
    encrypt_device_name
      (DeviceNamePrims.mk (fun _ _ => some (List.replicate 32 1))
        (fun _ _ => List.replicate 32 0) (fun _ _ d => d) (fun k => k))
      (KeyPairM.mk [1] [2]) (asciiBytes "My Laptop") [3] =
      .ok (DeviceNameM.mk (some [2]) (some (List.replicate 16 0))
        (some (asciiBytes "My Laptop"))) ∧
    (DeviceNamePrims.mk (fun _ _ => some (List.replicate 32 1))
        (fun _ _ => List.replicate 32 0) (fun _ _ d => d)
        (fun k => k)).hmacSha256
      ((DeviceNamePrims.mk (fun _ _ => some (List.replicate 32 1))
        (fun _ _ => List.replicate 32 0) (fun _ _ d => d)
        (fun k => k)).hmacSha256 (List.replicate 32 1) (asciiBytes "auth"))
      (asciiBytes "My Laptop") ≠ List.replicate 16 0 := by
  constructor
  · rfl
  · decide

/-- C6 (amended): `encrypt_device_name` implements exactly the specified
derivation with the synthetic IV truncated to its first 16 bytes: for every
primitive instantiation, generated ephemeral key pair, plaintext name and
identity public key, the code equals the spec-side derivation
`encryptDeviceNameSpec`. -/
theorem C6_encrypt_device_name_refines_spec (p : DeviceNamePrims)
    (ephemeralPair : KeyPairM) (name identityPublic : List Nat) :
    encrypt_device_name p ephemeralPair name identityPublic =
      encryptDeviceNameSpec p ephemeralPair name identityPublic := by
  unfold encrypt_device_name encryptDeviceNameSpec
  cases p.calculateAgreement ephemeralPair.privateKey identityPublic <;> rfl

/-- `TransferArchiveInfo` (src/signal/backup/api.rs:12). -/
structure TransferArchiveInfoM where
  cdn : Nat
  key : String
  deriving DecidableEq, Repr

/-- `TransferArchiveResponse` (src/signal/backup/api.rs:19). -/
inductive TransferArchiveResponseM where
  | success (info : TransferArchiveInfoM)
  | error (error : String)
  deriving DecidableEq, Repr

/-- reqwest `StatusCode::is_success()`: 2xx. -/
def statusIsSuccess (status : Nat) : Bool :=
  decide (200 ≤ status ∧ status < 300)

/-- The response handling of `fetch_transfer_archive`
(src/signal/backup/api.rs:55-85), once the HTTP request itself has
succeeded: `status` is the numeric HTTP status, `statusText` its `Display`
rendering, `body` the response text read in the fatal branch, and `parsed`
the outcome of serde JSON deserialization (`.error e` carries the serde
error's rendering). -/
def fetch_transfer_archive_handle (status : Nat) (statusText body : String)
    (parsed : Except String TransferArchiveResponseM) :
    Except SignalError TransferArchiveInfoM :=
  if status = 204 then
    .error (SignalError.networkError
      "Transfer archive not ready yet (204), phone may still be uploading")
  else if statusIsSuccess status = false then
    .error (SignalError.networkError
      ("Transfer archive request failed with status " ++ statusText ++ ": " ++
        body))
  else
    match parsed with
    | .error e =>
      .error (SignalError.protocolError
        ("Failed to parse transfer archive response: " ++ e))
    | .ok (.success info) => .ok info
    | .ok (.error e) =>
      .error (SignalError.protocolError ("Transfer archive error: " ++ e))

theorem transferFatalMsg_ne_notReady (st body : String) :
    ("Transfer archive request failed with status " ++ st ++ ": " ++ body) ≠
      "Transfer archive not ready yet (204), phone may still be uploading" := by
  intro h
  have h2 := congrArg (fun t => t.data.take 20) h
  simp only [String.data_append, List.append_assoc] at h2
  rw [List.take_append_of_le_length (by decide)] at h2
  exact absurd h2 (by decide)

/-- C7: `fetch_transfer_archive` maps an HTTP 204 to a dedicated
"not ready yet" error that is a fixed value independent of the response body,
while every other non-success status yields a fatal error for that attempt
that never equals the 204 outcome — so the two outcomes are distinguishable
to the caller; a non-204 success status proceeds to the parsed archive
descriptor. -/
theorem C7_transfer_archive_204_retryable :
    (∀ (statusText body : String)
      (parsed : Except String TransferArchiveResponseM),
      fetch_transfer_archive_handle 204 statusText body parsed =
        .error (SignalError.networkError
          "Transfer archive not ready yet (204), phone may still be uploading"))
      ∧
    (∀ (status : Nat) (statusText body statusText2 body2 : String)
      (parsed parsed2 : Except String TransferArchiveResponseM),
      status ≠ 204 → statusIsSuccess status = false →
      fetch_transfer_archive_handle status statusText body parsed =
        .error (SignalError.networkError
          ("Transfer archive request failed with status " ++ statusText ++
            ": " ++ body)) ∧
      fetch_transfer_archive_handle status statusText body parsed ≠
        fetch_transfer_archive_handle 204 statusText2 body2 parsed2) ∧
    (∀ (status : Nat) (statusText body : String)
      (info : TransferArchiveInfoM),
      status ≠ 204 → statusIsSuccess status = true →
      fetch_transfer_archive_handle status statusText body
        (.ok (.success info)) = .ok info) := by
  refine ⟨?_, ?_, ?_⟩
  · intro statusText body parsed
    simp [fetch_transfer_archive_handle]
  · intro status statusText body statusText2 body2 parsed parsed2 h204 hfail
    have heq : fetch_transfer_archive_handle status statusText body parsed =
        .error (SignalError.networkError
          ("Transfer archive request failed with status " ++ statusText ++
            ": " ++ body)) := by
      simp [fetch_transfer_archive_handle, if_neg h204, hfail]
    refine ⟨heq, ?_⟩
    rw [heq]
    simp only [fetch_transfer_archive_handle, if_pos rfl]
    intro hc
    exact transferFatalMsg_ne_notReady statusText body
      (SignalError.networkError.injEq _ _ ▸ (Except.error.injEq _ _ ▸ hc))
  · intro status statusText body info h204 hok
    simp [fetch_transfer_archive_handle, if_neg h204, hok]

/-- C7 witness: the clauses applied at statuses 500 (fatal), 204
(not-ready) and 200 (success). -/
theorem C7_transfer_archive_204_retryable_witness :
    fetch_transfer_archive_handle 500 "500 Internal Server Error" "oops"
      (.error "bad json") ≠
      fetch_transfer_archive_handle 204 "204 No Content" ""
        (.error "empty") ∧
    fetch_transfer_archive_handle 200 "200 OK" ""
      (.ok (.success (TransferArchiveInfoM.mk 2 "k"))) =
      .ok (TransferArchiveInfoM.mk 2 "k") := by
  constructor
  · exact (C7_transfer_archive_204_retryable.2.1 500 "500 Internal Server Error"
      "oops" "204 No Content" "" (.error "bad json") (.error "empty")
      (by decide) (by decide)).2
  · exact C7_transfer_archive_204_retryable.2.2 200 "200 OK" ""
      (TransferArchiveInfoM.mk 2 "k") (by decide) (by decide)

/-- `CapturedProvisioningData` (src/signal/provisioning.rs:26). -/
structure CapturedProvisioningDataM where
  ephemeral_backup_key : Option (List Nat)
  master_key : Option (List Nat)
  media_root_backup_key : Option (List Nat)
  deriving DecidableEq, Repr

/-- The process-wide mutex-guarded cell `CAPTURED_BACKUP_KEY`
(src/signal/provisioning.rs:23). -/
def CapturedCell := Option CapturedProvisioningDataM

/-- `store_captured_data` (src/signal/provisioning.rs:42): overwrites the
cell. -/
def store_captured_data (data : CapturedProvisioningDataM)
    (_cell : CapturedCell) : CapturedCell :=
  some data

/-- `take_captured_data` (src/signal/provisioning.rs:47): `guard.take()` —
returns the contents and leaves the cell empty. -/
def take_captured_data (cell : CapturedCell) :
    Option CapturedProvisioningDataM × CapturedCell :=
  (cell, none)

/-- `has_backup_key` (src/signal/provisioning.rs:52): non-consuming read. -/
def has_backup_key (cell : CapturedCell) : Bool :=
  match cell with
  | some d => d.ephemeral_backup_key.isSome
  | none => false

/-- `get_ephemeral_backup_key` (src/signal/provisioning.rs:59): clones the
key; the pair records the read value and the cell as the call leaves it
(unchanged — `guard.as_ref().and_then(clone)` does not take). -/
def get_ephemeral_backup_key (cell : CapturedCell) :
    Option (List Nat) × CapturedCell :=
  (match cell with
   | some d => d.ephemeral_backup_key
   | none => none, cell)

/-- The decrypted `ProvisionMessage` protobuf (all fields optional), as
consumed by `process_provisioning_request` (src/signal/provisioning.rs:237). -/
structure ProvisionMessageM where
  number : Option String
  aci : Option String
  pni : Option String
  provisioning_code : Option String
  aci_identity_key_public : Option (List Nat)
  aci_identity_key_private : Option (List Nat)
  pni_identity_key_public : Option (List Nat)
  pni_identity_key_private : Option (List Nat)
  profile_key : Option (List Nat)
  ephemeral_backup_key : Option (List Nat)
  master_key : Option (List Nat)
  media_root_backup_key : Option (List Nat)
  deriving DecidableEq, Repr

/-- `FullProvisionMessage` (src/signal/provisioning.rs:66). -/
structure FullProvisionMessageM where
  phone_number : String
  aci : Option String
  pni : Option String
  provisioning_code : String
  aci_identity_key_public : List Nat
  aci_identity_key_private : List Nat
  pni_identity_key_public : List Nat
  pni_identity_key_private : List Nat
  profile_key : List Nat
  ephemeral_backup_key : Option (List Nat)
  master_key : Option (List Nat)
  media_root_backup_key : Option (List Nat)
  deriving DecidableEq, Repr

/-- `ProvisioningResult` (src/signal/provisioning.rs:82); the URL is carried
as its rendered string. -/
inductive ProvisioningResultM where
  | url (u : String)
  | message (msg : FullProvisionMessageM)
  deriving DecidableEq, Repr

/-- `WebSocketRequestMessage`: the protobuf has every field optional. -/
structure WebSocketRequestM where
  id : Option Nat
  verb : Option String
  path : Option String
  body : Option (List Nat)
  deriving DecidableEq, Repr

/-- External primitives of the provisioning session: protobuf decoding of a
`WebSocketMessage` (the inner `Option` is its `request` field), decoding of a
`ProvisioningAddress` (inner `Option` is its `address` field), the combined
`ProvisionEnvelope::decode` + `ProvisioningCipher::decrypt` step,
URL construction (folding in the session's base64 public key and the fixed
`backup4,backup5` capability list), and the WebSocket response send
(`some e` = network failure). -/
structure ProvisioningPrims where
  decodeWsMessage : List Nat → Except String (Option WebSocketRequestM)
  decodeAddress : List Nat → Except String (Option String)
  decryptProvisionEnvelope : List Nat → Except String ProvisionMessageM
  buildProvisioningUrl : String → String
  sendResponse : Option Nat → Option String

/-- `process_provisioning_request` (src/signal/provisioning.rs:207).  The
dead error arm of `Url::parse("sgnl://linkdevice")` (a constant valid URL) is
not modelled. -/
def process_provisioning_request (p : ProvisioningPrims)
    (request : WebSocketRequestM) : Except SignalError ProvisioningResultM :=
  let verb := request.verb.getD ""
  let path := request.path.getD ""
  if verb = "PUT" ∧ path = "/v1/address" then
    match request.body with
    | none => .error (SignalError.protocolError "Missing body in address message")
    | some body =>
      match p.decodeAddress body with
      | .error e => .error (SignalError.protocolError e)
      | .ok none => .error (SignalError.protocolError "Missing UUID in address")
      | .ok (some uuid) => .ok (.url (p.buildProvisioningUrl uuid))
  else if verb = "PUT" ∧ path = "/v1/message" then
    match request.body with
    | none => .error (SignalError.protocolError "Missing body in message")
    | some body =>
      match p.decryptProvisionEnvelope body with
      | .error e => .error (SignalError.protocolError e)
      | .ok m =>
        match m.number with
        | none => .error (SignalError.protocolError "Missing phone number")
        | some phone =>
          match m.provisioning_code with
          | none => .error (SignalError.protocolError "Missing provisioning code")
          | some code =>
            match m.aci_identity_key_public with
            | none => .error (SignalError.protocolError "Missing ACI public key")
            | some apub =>
              match m.aci_identity_key_private with
              | none => .error (SignalError.protocolError "Missing ACI private key")
              | some apriv =>
                match m.pni_identity_key_public with
                | none => .error (SignalError.protocolError "Missing PNI public key")
                | some ppub =>
                  match m.pni_identity_key_private with
                  | none =>
                    .error (SignalError.protocolError "Missing PNI private key")
                  | some ppriv =>
                    match m.profile_key with
                    | none =>
                      .error (SignalError.protocolError "Missing profile key")
                    | some pk =>
                      .ok (.message
                        { phone_number := phone
                          aci := m.aci
                          pni := m.pni
                          provisioning_code := code
                          aci_identity_key_public := apub
                          aci_identity_key_private := apriv
                          pni_identity_key_public := ppub
                          pni_identity_key_private := ppriv
                          profile_key := pk
                          ephemeral_backup_key := m.ephemeral_backup_key
                          master_key := m.master_key
                          media_root_backup_key := m.media_root_backup_key })
  else
    .error (SignalError.protocolError ("Unknown request: " ++ verb ++ " " ++ path))

/-- One item of the provisioning WebSocket stream. -/
inductive WsMessageM where
  | binary (data : List Nat)
  | close
  | other
  deriving DecidableEq, Repr

/-- Observable steps of `run_provisioning_capture`'s receive loop, in
execution order: a request fully processed (its result — in particular the
provisioning URI — is available), the status-200 acknowledgment sent on the
WebSocket, the URL callback invoked, the captured secrets stored. -/
inductive ProvAction where
  | processed (id : Option Nat)
  | sentResponse (id : Option Nat)
  | invokedCallback (url : String)
  | storedCaptured (d : CapturedProvisioningDataM)
  deriving DecidableEq, Repr

/-- The receive loop of `run_provisioning_capture`
(src/signal/provisioning.rs:145): processes stream items in order, threading
the one-shot URL callback availability (`url_callback.take()`) and the
captured-secrets cell; returns the action trace, the function result, and the
final cell. -/
def provisioningLoop (p : ProvisioningPrims) :
    List WsMessageM → Bool → CapturedCell →
    List ProvAction × Except SignalError FullProvisionMessageM × CapturedCell
  | [], _, cell =>
    ([], .error (SignalError.protocolError
      "Provisioning incomplete - no message received"), cell)
  | .close :: _, _, cell =>
    ([], .error (SignalError.protocolError
      "Provisioning incomplete - no message received"), cell)
  | .other :: rest, cb, cell => provisioningLoop p rest cb cell
  | .binary data :: rest, cb, cell =>
    match p.decodeWsMessage data with
    | .error e => ([], .error (SignalError.protocolError e), cell)
    | .ok none => provisioningLoop p rest cb cell
    | .ok (some request) =>
      match process_provisioning_request p request with
      | .error e => ([], .error e, cell)
      | .ok result =>
        match p.sendResponse request.id with
        | some e =>
          ([.processed request.id], .error (SignalError.networkError e), cell)
        | none =>
          match result with
          | .url u =>
            if cb then
              let r := provisioningLoop p rest false cell
              (.processed request.id :: .sentResponse request.id ::
                .invokedCallback u :: r.1, r.2)
            else
              let r := provisioningLoop p rest cb cell
              (.processed request.id :: .sentResponse request.id :: r.1, r.2)
          | .message m =>
            let captured : CapturedProvisioningDataM :=
              { ephemeral_backup_key := m.ephemeral_backup_key
                master_key := m.master_key
                media_root_backup_key := m.media_root_backup_key }
            ([.processed request.id, .sentResponse request.id,
              .storedCaptured captured], .ok m,
              store_captured_data captured cell)

/-- Marks the store action. -/
def isStoreAction : ProvAction → Bool
  | .storedCaptured _ => true
  | _ => false

/-- Marks the callback-invocation action. -/
def isCallbackAction : ProvAction → Bool
  | .invokedCallback _ => true
  | _ => false


theorem provisioningLoop_store_le_one (p : ProvisioningPrims) :
    ∀ (events : List WsMessageM) (cb : Bool) (cell : CapturedCell),
    ((provisioningLoop p events cb cell).1.countP isStoreAction) ≤ 1 := by
  intro events
  induction events with
  | nil => intro cb cell; simp [provisioningLoop]
  | cons e rest ih =>
    intro cb cell
    cases e with
    | close => simp [provisioningLoop]
    | other => exact ih cb cell
    | binary data =>
      simp only [provisioningLoop]
      split
      · simp
      · exact ih cb cell
      · split
        · simp
        · split
          · simp [List.countP_cons, isStoreAction]
          · split
            · split
              · have := ih false cell
                simp [List.countP_cons, isStoreAction]
                omega
              · have := ih cb cell
                simp [List.countP_cons, isStoreAction]
                omega
            · simp [List.countP_cons, isStoreAction]

theorem provisioningLoop_callback_count (p : ProvisioningPrims) :
    ∀ (events : List WsMessageM) (cb : Bool) (cell : CapturedCell),
    ((provisioningLoop p events cb cell).1.countP isCallbackAction) ≤
      if cb then 1 else 0 := by
  intro events
  induction events with
  | nil => intro cb cell; simp [provisioningLoop]
  | cons e rest ih =>
    intro cb cell
    cases e with
    | close => simp [provisioningLoop]
    | other => exact ih cb cell
    | binary data =>
      simp only [provisioningLoop]
      split
      · simp
      · exact ih cb cell
      · split
        · simp
        · split
          · simp [List.countP_cons, isCallbackAction]
          · split
            · split
              · have h0 : ((provisioningLoop p rest false cell).1.countP
                    isCallbackAction) = 0 :=
                  Nat.le_zero.mp (by simpa using ih false cell)
                simp [List.countP_cons, isCallbackAction, h0]
              · rename_i hcb
                have hcb2 : cb = false := by
                  cases cb
                  · rfl
                  · exact absurd rfl hcb
                subst hcb2
                have h0 : ((provisioningLoop p rest false cell).1.countP
                    isCallbackAction) = 0 :=
                  Nat.le_zero.mp (by simpa using ih false cell)
                simp [List.countP_cons, isCallbackAction, h0]
            · cases cb <;> simp [List.countP_cons, isCallbackAction]

theorem provisioningLoop_ok_cell (p : ProvisioningPrims) :
    ∀ (events : List WsMessageM) (cb : Bool) (cell : CapturedCell)
      (m : FullProvisionMessageM),
    (provisioningLoop p events cb cell).2.1 = .ok m →
    (provisioningLoop p events cb cell).2.2 =
      some { ephemeral_backup_key := m.ephemeral_backup_key
             master_key := m.master_key
             media_root_backup_key := m.media_root_backup_key } := by
  intro events
  induction events with
  | nil => intro cb cell m h; simp [provisioningLoop] at h
  | cons e rest ih =>
    intro cb cell m h
    cases e with
    | close => simp [provisioningLoop] at h
    | other => exact ih cb cell m h
    | binary data =>
      simp only [provisioningLoop] at h ⊢
      revert h
      split
      · intro h; simp at h
      · intro h; exact ih cb cell m h
      · split
        · intro h; simp at h
        · split
          · intro h; simp at h
          · split
            · split
              · intro h; exact ih false cell m h
              · intro h; exact ih cb cell m h
            · intro h
              simp only at h
              cases h
              rfl

instance instDecidableEqExceptM {e a : Type} [DecidableEq e] [DecidableEq a] :
    DecidableEq (Except e a) := fun x y =>
  match x, y with
  | .ok v, .ok w =>
    if h : v = w then isTrue (by rw [h])
    else isFalse (by intro hc; cases hc; exact h rfl)
  | .error v, .error w =>
    if h : v = w then isTrue (by rw [h])
    else isFalse (by intro hc; cases hc; exact h rfl)
  | .ok _, .error _ => isFalse (by intro hc; cases hc)
  | .error _, .ok _ => isFalse (by intro hc; cases hc)

/-- Concrete provisioning primitives used by the witnesses and the
counterexample below: byte buffer `[1]` decodes to the "address" request,
`[2]` to the "message" request; decryption always succeeds with a fixed
message carrying an ephemeral backup key. -/
def c9Prims : ProvisioningPrims :=
  { decodeWsMessage := fun data =>
      if data = [1] then
        .ok (some (WebSocketRequestM.mk (some 7) (some "PUT")
          (some "/v1/address") (some [9])))
      else if data = [2] then
        .ok (some (WebSocketRequestM.mk (some 8) (some "PUT")
          (some "/v1/message") (some [10])))
      else .ok none
    decodeAddress := fun _ => .ok (some "4aa9-uuid")
    decryptProvisionEnvelope := fun _ => .ok
      (ProvisionMessageM.mk (some "+15550100") none none (some "code")
        (some [1]) (some [2]) (some [3]) (some [4]) (some [5]) (some [42])
        none none)
    buildProvisioningUrl := fun uuid => "sgnl://linkdevice?uuid=" ++ uuid
    sendResponse := fun _ => none }

/-- C9 counterexample: the claim says the URL callback is invoked before any
further network activity by the session — in particular before any
subsequent message is sent on the WebSocket.  In the code the status-200
acknowledgment of the "address" request is sent on the WebSocket AFTER the
provisioning URI has been computed and BEFORE the callback runs: for a single
address request the trace is [processed, sentResponse, invokedCallback] —
the WebSocket send sits at index 1, the callback only at index 2. -/
theorem C9_ack_sent_before_callback :
    (provisioningLoop c9Prims [WsMessageM.binary [1]] true none).1 =
      [ProvAction.processed (some 7), ProvAction.sentResponse (some 7),
        ProvAction.invokedCallback "sgnl://linkdevice?uuid=4aa9-uuid"] ∧
    (provisioningLoop c9Prims [WsMessageM.binary [1]] true none).1.get? 1 =
      some (ProvAction.sentResponse (some 7)) ∧
    (provisioningLoop c9Prims [WsMessageM.binary [1]] true none).1.get? 2 =
      some (ProvAction.invokedCallback "sgnl://linkdevice?uuid=4aa9-uuid") := by
  refine ⟨by decide, by decide, by decide⟩

/-- C9 (amended): once the first ("address") request yields the provisioning
URI, the session sends that request's mandatory status-200 acknowledgment and
then invokes the caller-supplied callback immediately — before reading or
processing any subsequent WebSocket message (no action of any later stream
item precedes the callback), and the callback is never invoked again. -/
theorem C9_callback_before_subsequent_events (p : ProvisioningPrims)
    (data : List Nat) (request : WebSocketRequestM) (u : String)
    (events : List WsMessageM) (cell : CapturedCell)
    (hdec : p.decodeWsMessage data = .ok (some request))
    (hproc : process_provisioning_request p request = .ok (.url u))
    (hsend : p.sendResponse request.id = none) :
    (provisioningLoop p (.binary data :: events) true cell).1 =
      ProvAction.processed request.id :: ProvAction.sentResponse request.id ::
        ProvAction.invokedCallback u ::
        (provisioningLoop p events false cell).1 ∧
    ((provisioningLoop p events false cell).1.countP isCallbackAction) = 0 := by
  constructor
  · simp [provisioningLoop, hdec, hproc, hsend]
  · exact Nat.le_zero.mp
      (by simpa using provisioningLoop_callback_count p events false cell)

/-- C9 witness: the amended ordering applied at the concrete primitives with
a trailing extra stream item. -/
theorem C9_callback_before_subsequent_events_witness :
    (provisioningLoop c9Prims [WsMessageM.binary [1], WsMessageM.other] true
      none).1 =
      ProvAction.processed (some 7) :: ProvAction.sentResponse (some 7) ::
        ProvAction.invokedCallback "sgnl://linkdevice?uuid=4aa9-uuid" ::
        (provisioningLoop c9Prims [WsMessageM.other] false none).1 := by
  exact (C9_callback_before_subsequent_events c9Prims [1]
    (WebSocketRequestM.mk (some 7) (some "PUT") (some "/v1/address")
      (some [9]))
    "sgnl://linkdevice?uuid=4aa9-uuid" [WsMessageM.other] none
    (by decide) (by decide) (by decide)).1

/-- C8 counterexample: the linking flow's actual read of the captured-secrets
cell is `get_ephemeral_backup_key` (src/signal/manager.rs:260), which clones
without emptying: after one read the cell still holds the data and a second
read observes the same value — not an empty cell — so the cell's reads are
not take-once as the claim states. -/
theorem C8_second_read_sees_data :
    (get_ephemeral_backup_key (store_captured_data
        (CapturedProvisioningDataM.mk (some [1, 2, 3]) none none) none)).1 =
      some [1, 2, 3] ∧
    (get_ephemeral_backup_key (store_captured_data
        (CapturedProvisioningDataM.mk (some [1, 2, 3]) none none) none)).2 =
      store_captured_data
        (CapturedProvisioningDataM.mk (some [1, 2, 3]) none none) none ∧
    (get_ephemeral_backup_key
        (get_ephemeral_backup_key (store_captured_data
          (CapturedProvisioningDataM.mk (some [1, 2, 3]) none none)
          none)).2).1 = some [1, 2, 3] := by
  refine ⟨rfl, rfl, rfl⟩

/-- C8 (amended): the capture loop stores into the cell at most once per
provisioning attempt; `take_captured_data` does have take-once semantics
(after a take, subsequent takes and reads observe an empty cell); the linking
flow however reads through the non-consuming `get_ephemeral_backup_key`, and
what protects it from stale data is that a successful capture run always
leaves the cell holding exactly the current attempt's captured keys, so the
value the flow reads equals the current provision message's ephemeral backup
key. -/
theorem C8_capture_cell_semantics :
    (∀ (p : ProvisioningPrims) (events : List WsMessageM) (cb : Bool)
      (cell : CapturedCell),
      ((provisioningLoop p events cb cell).1.countP isStoreAction) ≤ 1) ∧
    (∀ cell : CapturedCell, (take_captured_data cell).2 = none) ∧
    (∀ d : CapturedProvisioningDataM,
      (take_captured_data (take_captured_data (some d)).2).1 = none ∧
      (get_ephemeral_backup_key (take_captured_data (some d)).2).1 = none) ∧
    (∀ (p : ProvisioningPrims) (events : List WsMessageM) (cb : Bool)
      (cell : CapturedCell) (m : FullProvisionMessageM),
      (provisioningLoop p events cb cell).2.1 = .ok m →
      (get_ephemeral_backup_key (provisioningLoop p events cb cell).2.2).1 =
        m.ephemeral_backup_key) := by
  refine ⟨provisioningLoop_store_le_one, fun cell => rfl,
    fun d => ⟨rfl, rfl⟩, ?_⟩
  intro p events cb cell m h
  rw [provisioningLoop_ok_cell p events cb cell m h]
  rfl

/-- C8 witness: the freshness clause applied at the concrete primitives: the
value read after a successful capture run is the current message's key. -/
theorem C8_capture_cell_semantics_witness :
    (get_ephemeral_backup_key
      (provisioningLoop c9Prims [WsMessageM.binary [2]] true none).2.2).1 =
      some [42] := by
  exact C8_capture_cell_semantics.2.2.2 c9Prims [WsMessageM.binary [2]] true
    none
    (FullProvisionMessageM.mk "+15550100" none none "code" [1] [2] [3] [4]
      [5] (some [42]) none none) (by decide)

/-- `SendCommand` (src/signal/manager.rs:27); the one-shot reply channel is
identified by a numeric id. -/
inductive SendCommandM where
  | directMessage (recipient : String) (text : String) (reply : Nat)
  | groupMessage (group_key : List Nat) (text : String) (reply : Nat)
  deriving DecidableEq, Repr

/-- The reply-channel id carried by a command. -/
def replyIdOf : SendCommandM → Nat
  | .directMessage _ _ r => r
  | .groupMessage _ _ r => r

/-- The enqueue phase of `send_via_channel` (src/signal/manager.rs:1045):
the cloned contents of the shared `SEND_TX` cell are read under the mutex;
`none` means no receive loop has published a sender (the cell is unset), and
the call fails immediately — the command is never placed on any queue. -/
inductive SendStart where
  | failImmediately (e : SignalError)
  | enqueued (cmd : SendCommandM)
  deriving DecidableEq, Repr

/-- `send_via_channel`'s decision whether the command reaches the queue:
`sendTx = none` models `SEND_TX` unset (no loop running); `some closed` a
published sender whose receiving loop is alive (`closed = false`) or has
dropped the receiver (`closed = true`, `UnboundedSender::send` fails). -/
def send_via_channel_enqueue (sendTx : Option Bool) (cmd : SendCommandM) :
    SendStart :=
  match sendTx with
  | none =>
    .failImmediately (SignalError.sendFailed
      "Not connected - receive loop not running")
  | some true =>
    .failImmediately (SignalError.sendFailed "Send channel closed")
  | some false => .enqueued cmd

/-- `send_via_channel` end to end (src/signal/manager.rs:1045): `sendTx` as
above; `loopReply` is what the loop put on the one-shot reply channel
(`none` = the reply sender was dropped unresolved, making `rx.await` fail).
The caller always receives a value: an immediate "not connected" failure, a
channel-closed failure, a dropped-reply failure, or the loop's resolution. -/
def send_via_channel (sendTx : Option Bool)
    (loopReply : Option (Except SignalError Unit)) :
    Except SignalError Unit :=
  match sendTx with
  | none =>
    .error (SignalError.sendFailed "Not connected - receive loop not running")
  | some true => .error (SignalError.sendFailed "Send channel closed")
  | some false =>
    match loopReply with
    | none => .error (SignalError.sendFailed "Response channel closed")
    | some r => r

/-- An item delivered by `receive_messages` (src/signal/manager.rs:526). -/
inductive ReceivedM where
  | queueEmpty
  | contacts
  | content (incoming : Option String)
  deriving DecidableEq, Repr

/-- One arm of the `tokio::select!` in `receive_loop`
(src/signal/manager.rs:524): either a stream item (`none` = stream ended) or
a command from the send queue (`none` = queue closed).  A run of the loop is
modelled by the sequence of arms in the order the select resolved them. -/
inductive LoopEvent where
  | streamItem (item : Option ReceivedM)
  | command (cmd : Option SendCommandM)
  deriving DecidableEq, Repr

/-- Observable actions of `receive_loop`, in execution order. -/
inductive LoopAction where
  | emittedSyncCompleted
  | contactsSynced
  | emittedMessageReceived (m : String)
  | replyResolved (reply : Nat) (result : Except SignalError Unit)
  | emittedDisconnected
  deriving DecidableEq, Repr

/-- The `loop { tokio::select! { … } }` body of `receive_loop`
(src/signal/manager.rs:524-573): each received command is executed against
the live session (outcome given by `sendOutcome`) and its reply resolved with
exactly that result; the loop breaks on stream end or queue closure and then
emits the disconnect event. -/
def receive_loop_steps (sendOutcome : SendCommandM → Except SignalError Unit) :
    List LoopEvent → List LoopAction
  | [] => []
  | .streamItem none :: _ => [.emittedDisconnected]
  | .streamItem (some .queueEmpty) :: rest =>
    .emittedSyncCompleted :: receive_loop_steps sendOutcome rest
  | .streamItem (some .contacts) :: rest =>
    .contactsSynced :: receive_loop_steps sendOutcome rest
  | .streamItem (some (.content incoming)) :: rest =>
    (match incoming with
     | some m => [.emittedMessageReceived m]
     | none => []) ++ receive_loop_steps sendOutcome rest
  | .command none :: _ => [.emittedDisconnected]
  | .command (some cmd) :: rest =>
    .replyResolved (replyIdOf cmd) (sendOutcome cmd) ::
      receive_loop_steps sendOutcome rest

/-- The commands that actually reach the running loop: those whose select
arm fires before the loop breaks. -/
def processedCommands : List LoopEvent → List SendCommandM
  | [] => []
  | .streamItem none :: _ => []
  | .command none :: _ => []
  | .streamItem (some _) :: rest => processedCommands rest
  | .command (some cmd) :: rest => cmd :: processedCommands rest

/-- Extracts a reply resolution from a loop action. -/
def resolutionOf : LoopAction → Option (Nat × Except SignalError Unit)
  | .replyResolved reply result => some (reply, result)
  | _ => none

/-- C3: issuing a `SendCommand` while the shared sender handle is unset
fails immediately with the "not connected" `SendFailed` error and the command
is never queued; a command that does reach a running loop has its one-shot
reply resolved exactly once — the loop's reply resolutions correspond
one-to-one, in order, to the commands processed, each carrying the send's
success or typed failure — and the resolved value is exactly what the caller
of `send_via_channel` receives; a reply is never silently dropped: even a
dropped reply channel surfaces to the caller as a `SendFailed` error. -/
theorem C3_send_command_contract :
    (∀ loopReply : Option (Except SignalError Unit),
      send_via_channel none loopReply =
        .error (SignalError.sendFailed
          "Not connected - receive loop not running")) ∧
    (∀ cmd : SendCommandM,
      send_via_channel_enqueue none cmd =
        .failImmediately (SignalError.sendFailed
          "Not connected - receive loop not running")) ∧
    (∀ (sendOutcome : SendCommandM → Except SignalError Unit)
      (events : List LoopEvent),
      (receive_loop_steps sendOutcome events).filterMap resolutionOf =
        (processedCommands events).map
          (fun cmd => (replyIdOf cmd, sendOutcome cmd))) ∧
    (∀ r : Except SignalError Unit,
      send_via_channel (some false) (some r) = r) ∧
    (send_via_channel (some false) none =
      .error (SignalError.sendFailed "Response channel closed")) := by
  refine ⟨fun _ => rfl, fun _ => rfl, ?_, fun _ => rfl, rfl⟩
  intro sendOutcome events
  induction events with
  | nil => rfl
  | cons e rest ih =>
    cases e with
    | streamItem item =>
      cases item with
      | none => rfl
      | some received =>
        cases received with
        | queueEmpty =>
          simpa [receive_loop_steps, processedCommands, resolutionOf,
            List.filterMap_cons] using ih
        | contacts =>
          simpa [receive_loop_steps, processedCommands, resolutionOf,
            List.filterMap_cons] using ih
        | content incoming =>
          cases incoming with
          | none =>
            simpa [receive_loop_steps, processedCommands] using ih
          | some m =>
            simpa [receive_loop_steps, processedCommands, resolutionOf,
              List.filterMap_cons] using ih
    | command cmd =>
      cases cmd with
      | none => rfl
      | some c =>
        simpa [receive_loop_steps, processedCommands, resolutionOf,
          List.filterMap_cons] using ih
